import Mathlib

/-!
Shallow embedding of the two Python modules `mod_serv.py` (namespace
`ModServ`) and `VScode/Lession1/mod_serv.py` (namespace `Lession1`).

Conventions of the embedding:
* Python `float` balances and amounts are modelled as exact rationals `ℚ`.
* A Python method that may `raise ValueError` is modelled as a function
  returning `Except String _`; the `.error` branch corresponds to the
  exception.  Every exception in this code is raised before any mutation,
  so the `.error` branch carries no updated state: the state is unchanged.
* Mutation of `self` is modelled by returning the updated record.
* `datetime.now()` is modelled by an explicit `now : Nat` parameter.
* A Python prediction/input dictionary is modelled as an association list
  `Dict := List (String × ℚ)`; the claims only compare such records for
  equality and filter on integer fields, which this captures.
* `bcrypt` password hashing is opaque to every claim; the hashed password
  is carried as an uninterpreted `String` field.
-/

abbrev Dict : Type := List (String × ℚ)

namespace ModServ

inductive Role where
  | user
  | admin
  deriving DecidableEq, Repr

/-- `Account.__init__` of `src/mod_serv.py`: stores `user_id`, the given
`initial_balance` (default `0.0` in Python) and a creation timestamp. -/
structure Account where
  user_id : Int
  balance : ℚ
  created_at : Nat
  deriving DecidableEq, Repr

def Account.init (user_id : Int) (initial_balance : ℚ) (now : Nat) : Account :=
  { user_id := user_id, balance := initial_balance, created_at := now }

/-- `Account.deposit`: raises when `amount <= 0`, otherwise adds `amount`. -/
def Account.deposit (a : Account) (amount : ℚ) : Except String Account :=
  if amount ≤ 0 then Except.error "deposit amount must be positive"
  else Except.ok { a with balance := a.balance + amount }

/-- `Account.withdraw`: raises when `amount <= 0`, raises when
`balance < amount`, otherwise subtracts `amount`. -/
def Account.withdraw (a : Account) (amount : ℚ) : Except String Account :=
  if amount ≤ 0 then Except.error "withdraw amount must be positive"
  else if a.balance < amount then Except.error "insufficient funds"
  else Except.ok { a with balance := a.balance - amount }

/-- `User` of `src/mod_serv.py` (no balance responsibility). -/
structure User where
  user_id : Int
  username : String
  hashed_password : String
  role : Role
  created_at : Nat
  deriving DecidableEq, Repr

/-- `ExampleMLModel.predict` of `src/mod_serv.py`:
`[{"prediction": i % 2, "confidence": 0.95} for i, _ in enumerate(data)]`. -/
def ExampleMLModel.predict (data : List Dict) : List Dict :=
  data.enum.map (fun p => [("prediction", ((p.1 % 2 : ℕ) : ℚ)), ("confidence", (95 / 100 : ℚ))])

/-- One record appended by `PredictionHistory.add_prediction`. -/
structure PredictionRecord where
  task_id : Int
  user_id : Int
  input_data : List Dict
  result : List Dict
  timestamp : Nat
  deriving DecidableEq, Repr

structure PredictionHistory where
  history : List PredictionRecord
  deriving DecidableEq, Repr

def PredictionHistory.init : PredictionHistory := { history := [] }

/-- `PredictionHistory.add_prediction`: appends one record to the list. -/
def PredictionHistory.add_prediction (h : PredictionHistory) (task_id user_id : Int)
    (input_data result : List Dict) (now : Nat) : PredictionHistory :=
  { history := h.history ++ [PredictionRecord.mk task_id user_id input_data result now] }

/-- `PredictionHistory.get_user_history`:
`[record for record in self.history if record["user_id"] == user_id]`. -/
def PredictionHistory.get_user_history (h : PredictionHistory) (user_id : Int) :
    List PredictionRecord :=
  h.history.filter (fun record => record.user_id == user_id)

/-- `MLTask` of `src/mod_serv.py`.  The abstract `MLModel` is modelled by
its only observable behaviour, the `predict` function. -/
structure MLTask where
  task_id : Int
  user : User
  account : Account
  data : List Dict
  model : List Dict → List Dict

def MLTask.TASK_COST : ℚ := 1

/-- `MLTask.execute`: raises when `balance < TASK_COST`, otherwise withdraws
`TASK_COST` from the account and returns `model.predict(data)`.  The updated
task state is returned alongside the prediction result. -/
def MLTask.execute (t : MLTask) : Except String (MLTask × List Dict) :=
  if t.account.balance < MLTask.TASK_COST then
    Except.error "insufficient funds to execute the task"
  else
    (t.account.withdraw MLTask.TASK_COST).map
      (fun a => ({ t with account := a }, t.model t.data))

/-- One record appended by `TransactionHistory.add_transaction`. -/
structure Transaction where
  user_id : Int
  account_id : Int
  amount : ℚ
  description : String
  timestamp : Nat
  deriving DecidableEq, Repr

structure TransactionHistory where
  transactions : List Transaction
  deriving DecidableEq, Repr

def TransactionHistory.init : TransactionHistory := { transactions := [] }

/-- `TransactionHistory.add_transaction`: appends one record to the list. -/
def TransactionHistory.add_transaction (h : TransactionHistory)
    (user_id account_id : Int) (amount : ℚ) (description : String) (now : Nat) :
    TransactionHistory :=
  { transactions := h.transactions ++ [Transaction.mk user_id account_id amount description now] }

/-- `TransactionHistory.get_user_transactions`:
`[t for t in self.transactions if t["user_id"] == user_id]`. -/
def TransactionHistory.get_user_transactions (h : TransactionHistory) (user_id : Int) :
    List Transaction :=
  h.transactions.filter (fun t => t.user_id == user_id)

end ModServ

namespace Lession1

/-- `User.__init__` of `src/VScode/Lession1/mod_serv.py`: here the user
carries its own balance (default `0.0` in Python) and a string role. -/
structure User where
  user_id : Int
  username : String
  password : String
  balance : ℚ
  role : String
  deriving DecidableEq, Repr

def User.init (user_id : Int) (username password : String) (balance : ℚ)
    (role : String) : User :=
  { user_id := user_id, username := username, password := password,
    balance := balance, role := role }

/-- `User.add_balance`: adds `amount` when `amount > 0`, otherwise raises. -/
def User.add_balance (u : User) (amount : ℚ) : Except String User :=
  if amount > 0 then Except.ok { u with balance := u.balance + amount }
  else Except.error "deposit amount must be positive"

/-- `User.deduct_balance`: subtracts `amount` when `balance >= amount`,
otherwise raises.  Note there is no positivity check on `amount`. -/
def User.deduct_balance (u : User) (amount : ℚ) : Except String User :=
  if u.balance ≥ amount then Except.ok { u with balance := u.balance - amount }
  else Except.error "insufficient funds"

/-- `Admin.add_user_balance`: delegates to `user.add_balance(amount)`. -/
def Admin.add_user_balance (user : User) (amount : ℚ) : Except String User :=
  user.add_balance amount

/-- `ExampleMLModel.predict` of `src/VScode/Lession1/mod_serv.py`:
`[{"prediction": 1} for _ in data]`. -/
def ExampleMLModel.predict (data : List Dict) : List Dict :=
  data.map (fun _ => [("prediction", (1 : ℚ))])

/-- `MLTask` of the duplicate module: the cost is charged to the user. -/
structure MLTask where
  task_id : Int
  user : User
  data : List Dict
  model : List Dict → List Dict

/-- `MLTask.execute`: when `balance >= 1.0` deducts `1.0` and returns
`model.predict(data)`, otherwise raises. -/
def MLTask.execute (t : MLTask) : Except String (MLTask × List Dict) :=
  if t.user.balance ≥ 1 then
    (t.user.deduct_balance 1).map (fun u => ({ t with user := u }, t.model t.data))
  else
    Except.error "insufficient funds"

/-- One record appended by `TransactionHistory.add_transaction`. -/
structure Transaction where
  user_id : Int
  amount : ℚ
  description : String
  deriving DecidableEq, Repr

structure TransactionHistory where
  transactions : List Transaction
  deriving DecidableEq, Repr

def TransactionHistory.init : TransactionHistory := { transactions := [] }

/-- `TransactionHistory.add_transaction`: appends one record built from
`user.user_id`, `amount` and `description`. -/
def TransactionHistory.add_transaction (h : TransactionHistory) (user : User)
    (amount : ℚ) (description : String) : TransactionHistory :=
  { transactions := h.transactions ++ [Transaction.mk user.user_id amount description] }

/-- `TransactionHistory.get_user_transactions`:
`[t for t in self.transactions if t["user_id"] == user.user_id]`. -/
def TransactionHistory.get_user_transactions (h : TransactionHistory) (user : User) :
    List Transaction :=
  h.transactions.filter (fun t => t.user_id == user.user_id)

end Lession1

/-- C1 counterexample: `Account.__init__` performs no check on
`initial_balance`, so an account constructed with initial balance `-1` has a
negative balance immediately after construction, contrary to the claim. -/
theorem account_init_allows_negative_balance :
    ¬ (0 ≤ (ModServ.Account.init 1 (-1) 0).balance) := by
  norm_num [ModServ.Account.init]

/-- C1 (amended): construction with a non-negative initial balance (in
particular the Python default `0.0`) yields a non-negative balance, and every
operation (`deposit`, `withdraw`, `add_balance`, `deduct_balance`) maps a
state with non-negative balance to a state with non-negative balance. -/
theorem balance_never_negative :
    (∀ (uid : Int) (b : ℚ) (t : Nat), 0 ≤ b → 0 ≤ (ModServ.Account.init uid b t).balance) ∧
    (∀ (a : ModServ.Account) (x : ℚ) (a' : ModServ.Account),
      0 ≤ a.balance → a.deposit x = Except.ok a' → 0 ≤ a'.balance) ∧
    (∀ (a : ModServ.Account) (x : ℚ) (a' : ModServ.Account),
      0 ≤ a.balance → a.withdraw x = Except.ok a' → 0 ≤ a'.balance) ∧
    (∀ (uid : Int) (un pw : String) (b : ℚ) (r : String),
      0 ≤ b → 0 ≤ (Lession1.User.init uid un pw b r).balance) ∧
    (∀ (u : Lession1.User) (x : ℚ) (u' : Lession1.User),
      0 ≤ u.balance → u.add_balance x = Except.ok u' → 0 ≤ u'.balance) ∧
    (∀ (u : Lession1.User) (x : ℚ) (u' : Lession1.User),
      0 ≤ u.balance → u.deduct_balance x = Except.ok u' → 0 ≤ u'.balance) := by
  refine ⟨fun uid b t hb => hb, ?_, ?_, fun uid un pw b r hb => hb, ?_, ?_⟩
  · intro a x a' ha h
    unfold ModServ.Account.deposit at h
    split at h
    · exact absurd h (by simp)
    · rename_i hx
      obtain rfl : { a with balance := a.balance + x } = a' := by simpa using h
      dsimp
      push_neg at hx
      linarith
  · intro a x a' ha h
    unfold ModServ.Account.withdraw at h
    split at h
    · exact absurd h (by simp)
    · split at h
      · exact absurd h (by simp)
      · rename_i hx hlt
        obtain rfl : { a with balance := a.balance - x } = a' := by simpa using h
        dsimp
        push_neg at hlt
        linarith
  · intro u x u' hu h
    unfold Lession1.User.add_balance at h
    split at h
    · rename_i hx
      obtain rfl : { u with balance := u.balance + x } = u' := by simpa using h
      dsimp
      linarith
    · exact absurd h (by simp)
  · intro u x u' hu h
    unfold Lession1.User.deduct_balance at h
    split at h
    · rename_i hx
      obtain rfl : { u with balance := u.balance - x } = u' := by simpa using h
      dsimp
      linarith
    · exact absurd h (by simp)

/-- Witness for the amended C1 theorem at concrete inputs. -/
theorem balance_never_negative_witness :
    0 ≤ (ModServ.Account.init 1 0 0).balance ∧
    0 ≤ (ModServ.Account.mk 1 2 0).balance ∧
    0 ≤ (ModServ.Account.mk 1 1 0).balance ∧
    0 ≤ (Lession1.User.init 1 "u" "p" 0 "user").balance ∧
    0 ≤ (Lession1.User.mk 1 "u" "p" 2 "user").balance ∧
    0 ≤ (Lession1.User.mk 1 "u" "p" 1 "user").balance :=
  ⟨balance_never_negative.1 1 0 0 le_rfl,
   balance_never_negative.2.1 (ModServ.Account.mk 1 0 0) 2 (ModServ.Account.mk 1 2 0)
     le_rfl (by norm_num [ModServ.Account.deposit]),
   balance_never_negative.2.2.1 (ModServ.Account.mk 1 2 0) 1 (ModServ.Account.mk 1 1 0)
     (by norm_num) (by norm_num [ModServ.Account.withdraw]),
   balance_never_negative.2.2.2.1 1 "u" "p" 0 "user" le_rfl,
   balance_never_negative.2.2.2.2.1 (Lession1.User.mk 1 "u" "p" 0 "user") 2
     (Lession1.User.mk 1 "u" "p" 2 "user") le_rfl (by norm_num [Lession1.User.add_balance]),
   balance_never_negative.2.2.2.2.2 (Lession1.User.mk 1 "u" "p" 2 "user") 1
     (Lession1.User.mk 1 "u" "p" 1 "user") (by norm_num)
     (by norm_num [Lession1.User.deduct_balance])⟩

/-- C2 counterexample: `User.deduct_balance` of the duplicate module has no
positivity check, so called with the non-positive amount `-5` on a user with
balance `0` it raises nothing and changes the balance to `5`, contrary to the
claim that every balance-decreasing operation raises `ValueError` on
`amount <= 0` and leaves the balance unchanged. -/
theorem deduct_balance_accepts_negative_amount :
    Lession1.User.deduct_balance (Lession1.User.mk 1 "u" "p" 0 "user") (-5)
      = Except.ok (Lession1.User.mk 1 "u" "p" 5 "user") := by
  norm_num [Lession1.User.deduct_balance]

/-- C2 (amended): `Account.deposit`, `Account.withdraw` and `User.add_balance`
called with `amount <= 0` raise `ValueError` (the error branch carries no
updated state, so the balance is unchanged); `User.deduct_balance` is excluded,
having no positivity check. -/
theorem nonpositive_amount_rejected :
    (∀ (a : ModServ.Account) (x : ℚ), x ≤ 0 → ∃ e, a.deposit x = Except.error e) ∧
    (∀ (a : ModServ.Account) (x : ℚ), x ≤ 0 → ∃ e, a.withdraw x = Except.error e) ∧
    (∀ (u : Lession1.User) (x : ℚ), x ≤ 0 → ∃ e, u.add_balance x = Except.error e) := by
  refine ⟨?_, ?_, ?_⟩
  · intro a x hx
    exact ⟨_, by rw [ModServ.Account.deposit, if_pos hx]⟩
  · intro a x hx
    exact ⟨_, by rw [ModServ.Account.withdraw, if_pos hx]⟩
  · intro u x hx
    exact ⟨_, by rw [Lession1.User.add_balance, if_neg (by linarith)]⟩

/-- Witness for the amended C2 theorem at concrete inputs. -/
theorem nonpositive_amount_rejected_witness :
    (∃ e, ModServ.Account.deposit (ModServ.Account.mk 1 0 0) 0 = Except.error e) ∧
    (∃ e, ModServ.Account.withdraw (ModServ.Account.mk 1 0 0) (-1) = Except.error e) ∧
    (∃ e, Lession1.User.add_balance (Lession1.User.mk 1 "u" "p" 0 "user") 0 = Except.error e) :=
  ⟨nonpositive_amount_rejected.1 (ModServ.Account.mk 1 0 0) 0 le_rfl,
   nonpositive_amount_rejected.2.1 (ModServ.Account.mk 1 0 0) (-1) (by norm_num),
   nonpositive_amount_rejected.2.2 (Lession1.User.mk 1 "u" "p" 0 "user") 0 le_rfl⟩

/-- C3 (confirmed): with `balance < amount`, `Account.withdraw` raises
`ValueError` (on the positivity check or the insufficiency check, both
`ValueError`), and `User.deduct_balance` raises `ValueError`; the error branch
carries no updated state, so the balance is unchanged. -/
theorem withdraw_insufficient_raises :
    (∀ (a : ModServ.Account) (x : ℚ), a.balance < x → ∃ e, a.withdraw x = Except.error e) ∧
    (∀ (u : Lession1.User) (x : ℚ), u.balance < x → ∃ e, u.deduct_balance x = Except.error e) := by
  constructor
  · intro a x hx
    rcases le_or_lt x 0 with h0 | h0
    · exact ⟨_, by rw [ModServ.Account.withdraw, if_pos h0]⟩
    · exact ⟨_, by rw [ModServ.Account.withdraw, if_neg (not_le.mpr h0), if_pos hx]⟩
  · intro u x hx
    exact ⟨_, by rw [Lession1.User.deduct_balance, if_neg (by linarith)]⟩

/-- Witness for the C3 theorem at concrete inputs. -/
theorem withdraw_insufficient_raises_witness :
    (∃ e, ModServ.Account.withdraw (ModServ.Account.mk 1 0 0) 5 = Except.error e) ∧
    (∃ e, Lession1.User.deduct_balance (Lession1.User.mk 1 "u" "p" 0 "user") 5
      = Except.error e) :=
  ⟨withdraw_insufficient_raises.1 (ModServ.Account.mk 1 0 0) 5 (by norm_num),
   withdraw_insufficient_raises.2 (Lession1.User.mk 1 "u" "p" 0 "user") 5 (by norm_num)⟩

theorem ModServ.Account.withdraw_ok (a : ModServ.Account) (x : ℚ) (hx : 0 < x)
    (hb : x ≤ a.balance) :
    a.withdraw x = Except.ok { a with balance := a.balance - x } := by
  rw [ModServ.Account.withdraw, if_neg (not_le.mpr hx), if_neg (not_lt.mpr hb)]

theorem Lession1.User.deduct_balance_ok (u : Lession1.User) (x : ℚ) (hb : x ≤ u.balance) :
    u.deduct_balance x = Except.ok { u with balance := u.balance - x } := by
  rw [Lession1.User.deduct_balance, if_pos hb]

/-- C4 (confirmed): in both modules `MLTask.execute` either charges exactly the
task cost `1.0` and returns `model.predict(data)`, or (balance below `1.0`)
raises `ValueError` leaving the balance unchanged. -/
theorem mltask_execute_charges_cost :
    (∀ t : ModServ.MLTask, 1 ≤ t.account.balance →
      t.execute = Except.ok ({ t with account := { t.account with balance := t.account.balance - 1 } }, t.model t.data)) ∧
    (∀ t : ModServ.MLTask, t.account.balance < 1 → ∃ e, t.execute = Except.error e) ∧
    (∀ t : Lession1.MLTask, 1 ≤ t.user.balance →
      t.execute = Except.ok ({ t with user := { t.user with balance := t.user.balance - 1 } }, t.model t.data)) ∧
    (∀ t : Lession1.MLTask, t.user.balance < 1 → ∃ e, t.execute = Except.error e) := by
  refine ⟨?_, ?_, ?_, ?_⟩
  · intro t h1
    rw [ModServ.MLTask.execute, ModServ.MLTask.TASK_COST, if_neg (not_lt.mpr h1),
      ModServ.Account.withdraw_ok _ _ (by norm_num) h1]
    rfl
  · intro t h1
    exact ⟨_, by rw [ModServ.MLTask.execute, ModServ.MLTask.TASK_COST, if_pos h1]⟩
  · intro t h1
    rw [Lession1.MLTask.execute, if_pos h1, Lession1.User.deduct_balance_ok _ _ h1]
    rfl
  · intro t h1
    exact ⟨_, by rw [Lession1.MLTask.execute, if_neg (not_le.mpr h1)]⟩

/-- Witness for the C4 theorem at concrete inputs. -/
theorem mltask_execute_charges_cost_witness :
    (ModServ.MLTask.mk 1 (ModServ.User.mk 1 "u" "h" ModServ.Role.user 0) (ModServ.Account.mk 1 2 0) [] (fun _ => [])).execute
      = Except.ok (ModServ.MLTask.mk 1 (ModServ.User.mk 1 "u" "h" ModServ.Role.user 0) (ModServ.Account.mk 1 ((2 : ℚ) - 1) 0) [] (fun _ => []), []) ∧
    (∃ e, (ModServ.MLTask.mk 2 (ModServ.User.mk 1 "u" "h" ModServ.Role.user 0) (ModServ.Account.mk 1 0 0) [] (fun _ => [])).execute = Except.error e) ∧
    (Lession1.MLTask.mk 1 (Lession1.User.mk 1 "u" "p" 3 "user") [] (fun _ => [])).execute
      = Except.ok (Lession1.MLTask.mk 1 (Lession1.User.mk 1 "u" "p" ((3 : ℚ) - 1) "user") [] (fun _ => []), []) ∧
    (∃ e, (Lession1.MLTask.mk 2 (Lession1.User.mk 1 "u" "p" 0 "user") [] (fun _ => [])).execute = Except.error e) :=
  ⟨mltask_execute_charges_cost.1 _ (by norm_num),
   mltask_execute_charges_cost.2.1 _ (by norm_num),
   mltask_execute_charges_cost.2.2.1 _ (by norm_num),
   mltask_execute_charges_cost.2.2.2 _ (by norm_num)⟩

theorem count_filter_split {α : Type} [DecidableEq α] (p : α → Bool) (l : List α) (a : α) :
    (l.filter p).count a = if p a then l.count a else 0 := by
  by_cases hp : p a
  · rw [if_pos hp, List.count_filter hp]
  · rw [if_neg hp, List.count_eq_zero]
    intro hmem
    exact hp (List.of_mem_filter hmem)

/-- C5 (confirmed): each getter returns a sublist of the stored list (so the
records appear in their original insertion order and the history itself is
not modified — the getter is a pure function of the state), every returned
record has the requested `user_id`, and each record is returned with exactly
its multiplicity among the matching stored records. -/
theorem get_user_filter_exact :
    (∀ (h : ModServ.TransactionHistory) (uid : Int),
      (h.get_user_transactions uid).Sublist h.transactions ∧
      (∀ t ∈ h.get_user_transactions uid, t.user_id = uid) ∧
      (∀ t : ModServ.Transaction, (h.get_user_transactions uid).count t
        = if t.user_id = uid then h.transactions.count t else 0)) ∧
    (∀ (h : ModServ.PredictionHistory) (uid : Int),
      (h.get_user_history uid).Sublist h.history ∧
      (∀ r ∈ h.get_user_history uid, r.user_id = uid) ∧
      (∀ r : ModServ.PredictionRecord, (h.get_user_history uid).count r
        = if r.user_id = uid then h.history.count r else 0)) ∧
    (∀ (h : Lession1.TransactionHistory) (u : Lession1.User),
      (h.get_user_transactions u).Sublist h.transactions ∧
      (∀ t ∈ h.get_user_transactions u, t.user_id = u.user_id) ∧
      (∀ t : Lession1.Transaction, (h.get_user_transactions u).count t
        = if t.user_id = u.user_id then h.transactions.count t else 0)) := by
  refine ⟨fun h uid => ⟨List.filter_sublist _, ?_, ?_⟩,
    fun h uid => ⟨List.filter_sublist _, ?_, ?_⟩,
    fun h u => ⟨List.filter_sublist _, ?_, ?_⟩⟩
  · intro t ht
    simpa using List.of_mem_filter ht
  · intro t
    rw [ModServ.TransactionHistory.get_user_transactions, count_filter_split]
    by_cases hc : t.user_id = uid
    · rw [if_pos (by simpa using hc), if_pos hc]
    · rw [if_neg (by simpa using hc), if_neg hc]
  · intro r hr
    simpa using List.of_mem_filter hr
  · intro r
    rw [ModServ.PredictionHistory.get_user_history, count_filter_split]
    by_cases hc : r.user_id = uid
    · rw [if_pos (by simpa using hc), if_pos hc]
    · rw [if_neg (by simpa using hc), if_neg hc]
  · intro t ht
    simpa using List.of_mem_filter ht
  · intro t
    rw [Lession1.TransactionHistory.get_user_transactions, count_filter_split]
    by_cases hc : t.user_id = u.user_id
    · rw [if_pos (by simpa using hc), if_pos hc]
    · rw [if_neg (by simpa using hc), if_neg hc]

/-- Witness for the C5 theorem at concrete inputs. -/
theorem get_user_filter_exact_witness :
    (ModServ.Transaction.mk 1 1 5 "d" 0).user_id = 1 ∧
    (ModServ.PredictionRecord.mk 1 2 [] [] 0).user_id = 2 ∧
    (Lession1.Transaction.mk 3 5 "d").user_id = 3 :=
  ⟨(get_user_filter_exact.1 (ModServ.TransactionHistory.mk [ModServ.Transaction.mk 1 1 5 "d" 0]) 1).2.1
      (ModServ.Transaction.mk 1 1 5 "d" 0) (by decide),
   (get_user_filter_exact.2.1 (ModServ.PredictionHistory.mk [ModServ.PredictionRecord.mk 1 2 [] [] 0]) 2).2.1
      (ModServ.PredictionRecord.mk 1 2 [] [] 0) (by decide),
   (get_user_filter_exact.2.2 (Lession1.TransactionHistory.mk [Lession1.Transaction.mk 3 5 "d"])
      (Lession1.User.mk 3 "u" "p" 0 "user")).2.1 (Lession1.Transaction.mk 3 5 "d") (by decide)⟩

/-- C6 (confirmed): each `add_transaction` / `add_prediction` call grows the
stored list by exactly one, leaves every previously stored record unchanged
at its position, and puts the new record at the end. -/
theorem history_append_only :
    (∀ (h : ModServ.TransactionHistory) (uid aid : Int) (x : ℚ) (d : String) (now : Nat),
      (h.add_transaction uid aid x d now).transactions.length = h.transactions.length + 1 ∧
      (∀ i, i < h.transactions.length →
        (h.add_transaction uid aid x d now).transactions[i]? = h.transactions[i]?) ∧
      (h.add_transaction uid aid x d now).transactions.getLast?
        = some (ModServ.Transaction.mk uid aid x d now)) ∧
    (∀ (h : ModServ.PredictionHistory) (tid uid : Int) (dat res : List Dict) (now : Nat),
      (h.add_prediction tid uid dat res now).history.length = h.history.length + 1 ∧
      (∀ i, i < h.history.length →
        (h.add_prediction tid uid dat res now).history[i]? = h.history[i]?) ∧
      (h.add_prediction tid uid dat res now).history.getLast?
        = some (ModServ.PredictionRecord.mk tid uid dat res now)) ∧
    (∀ (h : Lession1.TransactionHistory) (u : Lession1.User) (x : ℚ) (d : String),
      (h.add_transaction u x d).transactions.length = h.transactions.length + 1 ∧
      (∀ i, i < h.transactions.length →
        (h.add_transaction u x d).transactions[i]? = h.transactions[i]?) ∧
      (h.add_transaction u x d).transactions.getLast?
        = some (Lession1.Transaction.mk u.user_id x d)) := by
  refine ⟨fun h uid aid x d now => ⟨by simp [ModServ.TransactionHistory.add_transaction], ?_,
      by simp [ModServ.TransactionHistory.add_transaction]⟩,
    fun h tid uid dat res now => ⟨by simp [ModServ.PredictionHistory.add_prediction], ?_,
      by simp [ModServ.PredictionHistory.add_prediction]⟩,
    fun h u x d => ⟨by simp [Lession1.TransactionHistory.add_transaction], ?_,
      by simp [Lession1.TransactionHistory.add_transaction]⟩⟩
  · intro i hi
    rw [ModServ.TransactionHistory.add_transaction]
    dsimp
    rw [List.getElem?_append, if_pos hi]
  · intro i hi
    rw [ModServ.PredictionHistory.add_prediction]
    dsimp
    rw [List.getElem?_append, if_pos hi]
  · intro i hi
    rw [Lession1.TransactionHistory.add_transaction]
    dsimp
    rw [List.getElem?_append, if_pos hi]

/-- Witness for the C6 theorem at concrete inputs. -/
theorem history_append_only_witness :
    ((ModServ.TransactionHistory.mk [ModServ.Transaction.mk 1 1 5 "d" 0]).add_transaction 2 2 7 "e" 1).transactions[0]?
      = (ModServ.TransactionHistory.mk [ModServ.Transaction.mk 1 1 5 "d" 0]).transactions[0]? ∧
    ((ModServ.PredictionHistory.mk [ModServ.PredictionRecord.mk 1 2 [] [] 0]).add_prediction 2 3 [] [] 1).history[0]?
      = (ModServ.PredictionHistory.mk [ModServ.PredictionRecord.mk 1 2 [] [] 0]).history[0]? ∧
    ((Lession1.TransactionHistory.mk [Lession1.Transaction.mk 3 5 "d"]).add_transaction
        (Lession1.User.mk 4 "u" "p" 0 "user") 7 "e").transactions[0]?
      = (Lession1.TransactionHistory.mk [Lession1.Transaction.mk 3 5 "d"]).transactions[0]? :=
  ⟨(history_append_only.1 (ModServ.TransactionHistory.mk [ModServ.Transaction.mk 1 1 5 "d" 0]) 2 2 7 "e" 1).2.1 0 (by decide),
   (history_append_only.2.1 (ModServ.PredictionHistory.mk [ModServ.PredictionRecord.mk 1 2 [] [] 0]) 2 3 [] [] 1).2.1 0 (by decide),
   (history_append_only.2.2 (Lession1.TransactionHistory.mk [Lession1.Transaction.mk 3 5 "d"])
      (Lession1.User.mk 4 "u" "p" 0 "user") 7 "e").2.1 0 (by decide)⟩

/-- C7 counterexample: on the one-element input `[{}]` the module of
`src/mod_serv.py` predicts `[{"prediction": 0, "confidence": 0.95}]` while the
duplicate module predicts `[{"prediction": 1}]`, so the two `predict`
implementations do not return equal result lists. -/
theorem predict_implementations_differ :
    ModServ.ExampleMLModel.predict [[]] ≠ Lession1.ExampleMLModel.predict [[]] := by
  norm_num [ModServ.ExampleMLModel.predict, Lession1.ExampleMLModel.predict, List.enum]

/-- C7 (amended): the two `predict` implementations agree only up to shape:
for every input list they return result lists of equal length (one entry per
input entry), but the entries themselves differ. -/
theorem predict_implementations_same_length :
    ∀ data : List Dict, (ModServ.ExampleMLModel.predict data).length
      = (Lession1.ExampleMLModel.predict data).length := by
  intro data
  simp [ModServ.ExampleMLModel.predict, Lession1.ExampleMLModel.predict]

/-- C8 (confirmed): successful `deposit` and `withdraw` update only `balance`,
leaving `user_id` and `created_at` unchanged; the raising branches carry no
updated state at all, so those fields are untouched in every case. -/
theorem deposit_withdraw_frame :
    (∀ (a : ModServ.Account) (x : ℚ) (a' : ModServ.Account), a.deposit x = Except.ok a' →
      a'.user_id = a.user_id ∧ a'.created_at = a.created_at) ∧
    (∀ (a : ModServ.Account) (x : ℚ) (a' : ModServ.Account), a.withdraw x = Except.ok a' →
      a'.user_id = a.user_id ∧ a'.created_at = a.created_at) := by
  constructor
  · intro a x a' h
    unfold ModServ.Account.deposit at h
    split at h
    · exact absurd h (by simp)
    · obtain rfl : { a with balance := a.balance + x } = a' := by simpa using h
      exact ⟨rfl, rfl⟩
  · intro a x a' h
    unfold ModServ.Account.withdraw at h
    split at h
    · exact absurd h (by simp)
    · split at h
      · exact absurd h (by simp)
      · obtain rfl : { a with balance := a.balance - x } = a' := by simpa using h
        exact ⟨rfl, rfl⟩

/-- Witness for the C8 theorem at concrete inputs. -/
theorem deposit_withdraw_frame_witness :
    ((ModServ.Account.mk 1 2 3).user_id = (ModServ.Account.mk 1 0 3).user_id ∧
      (ModServ.Account.mk 1 2 3).created_at = (ModServ.Account.mk 1 0 3).created_at) ∧
    ((ModServ.Account.mk 1 1 3).user_id = (ModServ.Account.mk 1 2 3).user_id ∧
      (ModServ.Account.mk 1 1 3).created_at = (ModServ.Account.mk 1 2 3).created_at) :=
  ⟨deposit_withdraw_frame.1 (ModServ.Account.mk 1 0 3) 2 (ModServ.Account.mk 1 2 3)
      (by norm_num [ModServ.Account.deposit]),
   deposit_withdraw_frame.2 (ModServ.Account.mk 1 2 3) 1 (ModServ.Account.mk 1 1 3)
      (by norm_num [ModServ.Account.withdraw])⟩

/-- C9 (confirmed): starting from a non-negative balance `b`, `deposit(a)`
followed by `withdraw(a)` with `a > 0` raises nothing and returns the balance
to exactly `b` (balances are exact rationals here). -/
theorem deposit_then_withdraw_roundtrip :
    ∀ (a : ModServ.Account) (x : ℚ), 0 ≤ a.balance → 0 < x →
      ∃ a1 a2 : ModServ.Account, a.deposit x = Except.ok a1 ∧
        a1.withdraw x = Except.ok a2 ∧ a2.balance = a.balance := by
  intro a x ha hx
  refine ⟨{ a with balance := a.balance + x }, { a with balance := a.balance + x - x },
    ?_, ?_, by dsimp; ring⟩
  · rw [ModServ.Account.deposit, if_neg (not_le.mpr hx)]
  · rw [ModServ.Account.withdraw_ok _ _ hx (by dsimp; linarith)]

/-- Witness for the C9 theorem at concrete inputs. -/
theorem deposit_then_withdraw_roundtrip_witness :
    ∃ a1 a2 : ModServ.Account, (ModServ.Account.mk 1 0 0).deposit 2 = Except.ok a1 ∧
      a1.withdraw 2 = Except.ok a2 ∧ a2.balance = (ModServ.Account.mk 1 0 0).balance :=
  deposit_then_withdraw_roundtrip (ModServ.Account.mk 1 0 0) 2 le_rfl (by norm_num)

/-- C10 (confirmed): in both modules `ExampleMLModel.predict` returns exactly
one result entry per input entry. -/
theorem predict_length_matches_input :
    ∀ data : List Dict, (ModServ.ExampleMLModel.predict data).length = data.length ∧
      (Lession1.ExampleMLModel.predict data).length = data.length := by
  intro data
  constructor <;> simp [ModServ.ExampleMLModel.predict, Lession1.ExampleMLModel.predict]
